import Mathlib

/-!
Verification of the centurion typed event facade and the touch-finger
event wrapper.

The event facade (`cen::Event` in `events/event.hpp`) is present in the
repository only through its unit tests; the data model and the
queue-facing operations below are therefore modelled from the
specification (sections 3, 4.2, 4.3), using the SDL2 discriminator codes
exercised by the tests.  The touch-finger wrapper is translated directly
from `src/touch_finger_event.cpp`.
-/

namespace Cen

/-- Modelled from the spec: the `EventCategory` enumeration mirroring the
fixed mapping from integer discriminator codes to native record layouts.
One member per discriminator code exercised by the tests, plus
`Unknown` for every unrecognized code. -/
inductive EventType where
  | Quit
  | Window
  | KeyDown
  | KeyUp
  | TextInput
  | MouseMotion
  | FingerDown
  | FingerUp
  | FingerMotion
  | AudioDeviceAdded
  | AudioDeviceRemoved
  | Unknown
deriving DecidableEq, BEq, Repr

/-- Modelled from the spec: the fixed mapping from integer category codes
(SDL2 event type values) to event categories; any other code maps to the
`Unknown` category. -/
def eventTypeOfCode (code : Nat) : EventType :=
  if code = 256 then .Quit
  else if code = 512 then .Window
  else if code = 768 then .KeyDown
  else if code = 769 then .KeyUp
  else if code = 771 then .TextInput
  else if code = 1024 then .MouseMotion
  else if code = 1792 then .FingerDown
  else if code = 1793 then .FingerUp
  else if code = 1794 then .FingerMotion
  else if code = 4352 then .AudioDeviceAdded
  else if code = 4353 then .AudioDeviceRemoved
  else .Unknown

/-- Modelled from the spec: a raw polymorphic event record
(`RawEventRecord`, the native SDL event union).  The first field is the
integer category discriminator; the remaining fields flatten the payload
members of the union variants modelled here.  Only the fields selected by
the discriminator are meaningful. -/
structure RawEventRecord where
  type : Nat
  timestamp : Nat
  keyCode : Nat
  repeated : Bool
  winEventId : Nat
  data1 : Int
  data2 : Int
  x : Int
  y : Int
  xrel : Int
  yrel : Int
  text : String
  fx : ℚ
  fy : ℚ
  fdx : ℚ
  fdy : ℚ
  fpressure : ℚ
  adevice : Nat
  iscapture : Bool
deriving DecidableEq, Repr

/-- Modelled from the spec: the quit event variant payload. -/
structure quit_event where
  timestamp : Nat
deriving DecidableEq, Repr

/-- Modelled from the spec: the window event variant payload (window-event
subtype and two generic data fields). -/
structure WindowEvent where
  winEventId : Nat
  data1 : Int
  data2 : Int
deriving DecidableEq, Repr

/-- Modelled from the spec: the keyboard event variant payload (key code
and repeat flag). -/
structure keyboard_event where
  keyCode : Nat
  repeated : Bool
deriving DecidableEq, Repr

/-- Modelled from the spec: the text-input event variant payload. -/
structure text_input_event where
  text : String
deriving DecidableEq, Repr

/-- Modelled from the spec: the mouse-motion event variant payload
(x/y position and relative dx/dy). -/
structure MouseMotionEvent where
  x : Int
  y : Int
  xrel : Int
  yrel : Int
deriving DecidableEq, Repr

/-- Accessor for the x position of a mouse-motion variant. -/
def MouseMotionEvent.GetX (e : MouseMotionEvent) : Int := e.x

/-- Accessor for the y position of a mouse-motion variant. -/
def MouseMotionEvent.GetY (e : MouseMotionEvent) : Int := e.y

/-- Modelled from the spec: the touch-finger event variant payload of the
event facade. -/
structure touch_finger_event where
  fx : ℚ
  fy : ℚ
  fdx : ℚ
  fdy : ℚ
  fpressure : ℚ
deriving DecidableEq, Repr

/-- Modelled from the spec: the audio-device event variant payload. -/
structure AudioDeviceEvent where
  adevice : Nat
  iscapture : Bool
deriving DecidableEq, Repr

/-- Modelled from the spec: the closed set of event variant wrapper types
multiplexed by the facade; `Is`, `Get` and `TryGet` are indexed by this
set. -/
inductive Category where
  | quitEv
  | windowEv
  | keyboardEv
  | textInputEv
  | mouseMotionEv
  | touchFingerEv
  | audioDeviceEv
deriving DecidableEq, BEq, Repr

/-- Modelled from the spec: which variant wrapper type legally interprets
a record of the given category; keyboard covers KeyDown and KeyUp,
touch-finger covers the three finger categories, audio-device covers
added and removed; the `Unknown` category has no typed payload. -/
def categoryOfType : EventType → Option Category
  | .Quit => some .quitEv
  | .Window => some .windowEv
  | .KeyDown => some .keyboardEv
  | .KeyUp => some .keyboardEv
  | .TextInput => some .textInputEv
  | .MouseMotion => some .mouseMotionEv
  | .FingerDown => some .touchFingerEv
  | .FingerUp => some .touchFingerEv
  | .FingerMotion => some .touchFingerEv
  | .AudioDeviceAdded => some .audioDeviceEv
  | .AudioDeviceRemoved => some .audioDeviceEv
  | .Unknown => none

/-- The variant wrapper type that a raw discriminator code selects, if
any. -/
def codeCategory (code : Nat) : Option Category :=
  categoryOfType (eventTypeOfCode code)

/-- Modelled from the spec: the tagged union of event variants held by an
`Event`; `empty` is the no-event-held state, also used for the unknown
category (no typed payload). -/
inductive EventData where
  | empty
  | quit (q : quit_event)
  | window (w : WindowEvent)
  | keyboard (k : keyboard_event)
  | textInput (t : text_input_event)
  | mouseMotion (m : MouseMotionEvent)
  | touchFinger (t : touch_finger_event)
  | audioDevice (a : AudioDeviceEvent)
deriving DecidableEq, Repr

/-- The wrapper type associated with each member of the closed variant
set. -/
def VariantType : Category → Type
  | .quitEv => quit_event
  | .windowEv => WindowEvent
  | .keyboardEv => keyboard_event
  | .textInputEv => text_input_event
  | .mouseMotionEv => MouseMotionEvent
  | .touchFingerEv => touch_finger_event
  | .audioDeviceEv => AudioDeviceEvent

/-- Extract the payload of the matching variant wrapper type from the
stored union, if the active alternative matches. -/
def extract : (c : Category) → EventData → Option (VariantType c)
  | .quitEv, .quit q => some q
  | .windowEv, .window w => some w
  | .keyboardEv, .keyboard k => some k
  | .textInputEv, .textInput t => some t
  | .mouseMotionEv, .mouseMotion m => some m
  | .touchFingerEv, .touchFinger t => some t
  | .audioDeviceEv, .audioDevice a => some a
  | _, _ => none

/-- Modelled from the spec: the value copy of the payload subset
meaningful to a raw record's category (construction from a matching raw
record is a pure value copy). -/
def variantOfRaw : (c : Category) → RawEventRecord → VariantType c
  | .quitEv, r => quit_event.mk r.timestamp
  | .windowEv, r => WindowEvent.mk r.winEventId r.data1 r.data2
  | .keyboardEv, r => keyboard_event.mk r.keyCode r.repeated
  | .textInputEv, r => text_input_event.mk r.text
  | .mouseMotionEv, r => MouseMotionEvent.mk r.x r.y r.xrel r.yrel
  | .touchFingerEv, r => touch_finger_event.mk r.fx r.fy r.fdx r.fdy r.fpressure
  | .audioDeviceEv, r => AudioDeviceEvent.mk r.adevice r.iscapture

/-- The stored union alternative selected by a raw record's
discriminator: the matching variant's value copy, or `empty` when the
discriminator is unrecognized. -/
def dataOfRaw (r : RawEventRecord) : EventData :=
  match codeCategory r.type with
  | some .quitEv => .quit (variantOfRaw .quitEv r)
  | some .windowEv => .window (variantOfRaw .windowEv r)
  | some .keyboardEv => .keyboard (variantOfRaw .keyboardEv r)
  | some .textInputEv => .textInput (variantOfRaw .textInputEv r)
  | some .mouseMotionEv => .mouseMotion (variantOfRaw .mouseMotionEv r)
  | some .touchFingerEv => .touchFinger (variantOfRaw .touchFingerEv r)
  | some .audioDeviceEv => .audioDevice (variantOfRaw .audioDeviceEv r)
  | none => .empty

/-- Modelled from the spec: an `Event` mirrors one raw queue record at a
time: the raw record last stored plus the tagged union holding at most
one active variant. -/
structure Event where
  raw : RawEventRecord
  data : EventData
deriving DecidableEq, Repr

/-- The all-zero raw record of a default-constructed event. -/
def zeroRaw : RawEventRecord :=
  RawEventRecord.mk 0 0 0 false 0 0 0 0 0 0 0 "" 0 0 0 0 0 0 false

/-- Modelled from the spec: empty construction produces an instance with
no active category. -/
def emptyEvent : Event :=
  Event.mk zeroRaw .empty

/-- Modelled from the spec: `Construct` reads the category discriminator
from the raw record, sets the tag, and stores the appropriate variant's
value copy; an unrecognized discriminator maps to the unknown category
holding no typed payload.  Always succeeds. -/
def Event.Construct (r : RawEventRecord) : Event :=
  Event.mk r (dataOfRaw r)

/-- Current category tag of the event instance. -/
def Event.GetType (e : Event) : EventType :=
  eventTypeOfCode e.raw.type

/-- True iff no variant is currently active. -/
def Event.IsEmpty (e : Event) : Bool :=
  e.data = EventData.empty

/-- Type-level query: true iff the active variant has the given wrapper
type. -/
def Event.Is (e : Event) (c : Category) : Bool :=
  (extract c e.data).isSome

/-- Modelled from the spec: the type-mismatch failure reported by `Get`
on a non-matching category. -/
inductive EventError where
  | typeMismatch
deriving DecidableEq, Repr

/-- Modelled from the spec: `Get` returns the stored variant, or reports
a type-mismatch condition when the active category does not match; the
event itself is returned unchanged alongside the result (no side effect
on failure). -/
def Event.Get (c : Category) (e : Event) :
    Except EventError (VariantType c) × Event :=
  match extract c e.data with
  | some v => (Except.ok v, e)
  | none => (Except.error EventError.typeMismatch, e)

/-- Modelled from the spec: `TryGet`, the non-failing alternative; empty
result on mismatch. -/
def Event.TryGet (c : Category) (e : Event) : Option (VariantType c) :=
  extract c e.data

/-- Modelled from the spec: the process-wide FIFO queue of raw records
owned by the native library. -/
abbrev EventQueue : Type := List RawEventRecord

/-- Modelled from the spec: `Push` converts the event back to raw form
and appends it to the tail of the external queue. -/
def Event.Push (e : Event) (q : EventQueue) : EventQueue :=
  q ++ [e.raw]

/-- Modelled from the spec: `Poll` removes the oldest pending record from
the external queue into an event instance via the construction rule;
returns false and leaves the target empty if the queue was empty. -/
def Event.Poll (q : EventQueue) : Bool × Event × EventQueue :=
  match q with
  | [] => (false, emptyEvent, [])
  | r :: rest => (true, Event.Construct r, rest)

/-- Modelled from the spec: `FlushAll` for all categories drops every
pending record. -/
def Event.FlushAll (_q : EventQueue) : EventQueue := []

/-- Modelled from the spec: `FlushAll` for one category drops every
pending record of that category. -/
def Event.FlushAllOf (t : EventType) (q : EventQueue) : EventQueue :=
  q.filter (fun r => !(eventTypeOfCode r.type == t))

/-- Modelled from the spec: queue depth over all categories, without
mutating the queue. -/
def Event.GetQueueSize (q : EventQueue) : Nat := q.length

/-- Modelled from the spec: queue depth of one category, without mutating
the queue. -/
def Event.GetQueueSizeOf (t : EventType) (q : EventQueue) : Nat :=
  (q.filter (fun r => eventTypeOfCode r.type == t)).length

/-- Modelled from the spec: `InQueue`, true iff some pending record has
the given category; stateless convenience query. -/
def Event.InQueue (t : EventType) (q : EventQueue) : Bool :=
  q.any (fun r => eventTypeOfCode r.type == t)

/-- An event is well-formed when its stored union matches what the
construction rule derives from its raw record; every event produced by
`Construct`, `Poll` or empty construction is well-formed. -/
def Event.WellFormed (e : Event) : Prop :=
  e.data = dataOfRaw e.raw

/-- Repeatedly poll the queue, collecting the events produced, with
explicit fuel bounding the number of `Poll` calls. -/
def pollDrain : Nat → EventQueue → List Event
  | 0, _ => []
  | Nat.succ n, q =>
    match Event.Poll q with
    | (true, e, rest) => e :: pollDrain n rest
    | (false, _, _) => []

/-- Modelled from the spec: the inclusive range argument of
`clamp_inclusive` from `centurion_utils.h` (the header is not in the
source tree; the call sites in `touch_finger_event.cpp` pass brace-lists
such as `\x7b0, 1\x7d`). -/
structure Range where
  lo : ℚ
  hi : ℚ

/-- Modelled from the spec: `clamp_inclusive` from `centurion_utils.h`
(not in the source tree): clamps the value into the inclusive range.
Floating-point payload fields are modelled as rationals, on which
clamping is exact. -/
def clamp_inclusive (range : Range) (value : ℚ) : ℚ :=
  if value < range.lo then range.lo
  else if value > range.hi then range.hi
  else value

/-- The SDL touch-finger payload wrapped by `TouchFingerEvent`
(`m_event` in `touch_finger_event.cpp`). -/
structure SDL_TouchFingerEvent where
  touchId : Int
  fingerId : Int
  windowID : Nat
  x : ℚ
  y : ℚ
  dx : ℚ
  dy : ℚ
  pressure : ℚ
deriving DecidableEq, Repr

/-- The touch-finger event wrapper of `src/touch_finger_event.cpp`,
holding its SDL payload by value. -/
structure TouchFingerEvent where
  m_event : SDL_TouchFingerEvent
deriving DecidableEq, Repr

/-- `TouchFingerEvent::set_touch_id`. -/
def TouchFingerEvent.set_touch_id (e : TouchFingerEvent) (id : Int) : TouchFingerEvent :=
  TouchFingerEvent.mk { e.m_event with touchId := id }

/-- `TouchFingerEvent::set_finger_id`. -/
def TouchFingerEvent.set_finger_id (e : TouchFingerEvent) (id : Int) : TouchFingerEvent :=
  TouchFingerEvent.mk { e.m_event with fingerId := id }

/-- `TouchFingerEvent::set_window_id`. -/
def TouchFingerEvent.set_window_id (e : TouchFingerEvent) (id : Nat) : TouchFingerEvent :=
  TouchFingerEvent.mk { e.m_event with windowID := id }

/-- `TouchFingerEvent::set_x`: stores `clamp_inclusive(\x7b0, 1\x7d, x)`. -/
def TouchFingerEvent.set_x (e : TouchFingerEvent) (x : ℚ) : TouchFingerEvent :=
  TouchFingerEvent.mk { e.m_event with x := clamp_inclusive (Range.mk 0 1) x }

/-- `TouchFingerEvent::set_y`: stores `clamp_inclusive(\x7b0, 1\x7d, y)`. -/
def TouchFingerEvent.set_y (e : TouchFingerEvent) (y : ℚ) : TouchFingerEvent :=
  TouchFingerEvent.mk { e.m_event with y := clamp_inclusive (Range.mk 0 1) y }

/-- `TouchFingerEvent::set_dx`: stores `clamp_inclusive(\x7b-1, 1\x7d, dx)`. -/
def TouchFingerEvent.set_dx (e : TouchFingerEvent) (dx : ℚ) : TouchFingerEvent :=
  TouchFingerEvent.mk { e.m_event with dx := clamp_inclusive (Range.mk (-1) 1) dx }

/-- `TouchFingerEvent::set_dy`: stores `clamp_inclusive(\x7b-1, 1\x7d, dy)`. -/
def TouchFingerEvent.set_dy (e : TouchFingerEvent) (dy : ℚ) : TouchFingerEvent :=
  TouchFingerEvent.mk { e.m_event with dy := clamp_inclusive (Range.mk (-1) 1) dy }

/-- `TouchFingerEvent::set_pressure`: stores
`clamp_inclusive(\x7b0, 1\x7d, pressure)`. -/
def TouchFingerEvent.set_pressure (e : TouchFingerEvent) (pressure : ℚ) : TouchFingerEvent :=
  TouchFingerEvent.mk { e.m_event with pressure := clamp_inclusive (Range.mk 0 1) pressure }

/-- `TouchFingerEvent::x` accessor. -/
def TouchFingerEvent.x (e : TouchFingerEvent) : ℚ := e.m_event.x

/-- `TouchFingerEvent::y` accessor. -/
def TouchFingerEvent.y (e : TouchFingerEvent) : ℚ := e.m_event.y

/-- `TouchFingerEvent::dx` accessor. -/
def TouchFingerEvent.dx (e : TouchFingerEvent) : ℚ := e.m_event.dx

/-- `TouchFingerEvent::dy` accessor. -/
def TouchFingerEvent.dy (e : TouchFingerEvent) : ℚ := e.m_event.dy

/-- `TouchFingerEvent::pressure` accessor. -/
def TouchFingerEvent.pressure (e : TouchFingerEvent) : ℚ := e.m_event.pressure

/-- An event instance has exactly one active variant wrapper type. -/
def ExactlyOneIs (e : Event) : Prop :=
  ∃! c : Category, e.Is c = true

/-- A quit raw record (discriminator 256 = SDL_QUIT), all payload fields
zero. -/
def rQuit0 : RawEventRecord :=
  RawEventRecord.mk 256 0 0 false 0 0 0 0 0 0 0 "" 0 0 0 0 0 0 false

/-- A window raw record (discriminator 512 = SDL_WINDOWEVENT). -/
def rW0 : RawEventRecord :=
  RawEventRecord.mk 512 0 0 false 3 11 7 0 0 0 0 "" 0 0 0 0 0 0 false

/-- A mouse-motion raw record (discriminator 1024 = SDL_MOUSEMOTION) with
x = 839 and y = 351, the concrete scenario of the tests. -/
def rMotion0 : RawEventRecord :=
  RawEventRecord.mk 1024 0 0 false 0 0 0 839 351 0 0 "" 0 0 0 0 0 0 false

/-- A raw record whose discriminator (999) matches no known category. -/
def rUnk0 : RawEventRecord :=
  RawEventRecord.mk 999 0 0 false 0 0 0 0 0 0 0 "" 0 0 0 0 0 0 false

/-- The event obtained by constructing from the quit raw record. -/
def qe0 : Event := Event.Construct rQuit0

/-- A touch-finger wrapper with all payload fields zero. -/
def tfe0 : TouchFingerEvent :=
  TouchFingerEvent.mk (SDL_TouchFingerEvent.mk 0 0 0 0 0 0 0 0)

lemma clamp_inclusive_mem (r : Range) (h : r.lo ≤ r.hi) (v : ℚ) :
    r.lo ≤ clamp_inclusive r v ∧ clamp_inclusive r v ≤ r.hi := by
  unfold clamp_inclusive
  split_ifs with h1 h2 <;> constructor <;> linarith

lemma clamp_inclusive_of_mem (r : Range) (v : ℚ) (h1 : r.lo ≤ v) (h2 : v ≤ r.hi) :
    clamp_inclusive r v = v := by
  unfold clamp_inclusive
  split_ifs with ha hb
  · linarith
  · linarith
  · rfl

/-- C5: whenever the process-wide event queue is empty, `Poll` returns
false and leaves the target event empty; this is the normal loop-exit
signal, not an error. -/
theorem poll_empty_queue :
    Event.Poll [] = (false, emptyEvent, []) ∧ emptyEvent.IsEmpty = true :=
  ⟨rfl, rfl⟩

/-- C1: pushing a well-formed event onto the empty queue raises the queue
size by one, and immediately polling yields true together with an event
whose category tag and payload equal the pushed event's (here: the full
event value). -/
theorem push_poll_inverse (e : Event) (h : e.WellFormed) :
    Event.Poll (Event.Push e []) = (true, e, []) ∧
    Event.GetQueueSize (Event.Push e []) = Event.GetQueueSize [] + 1 := by
  refine ⟨?_, rfl⟩
  show (true, Event.Construct e.raw, ([] : EventQueue)) = (true, e, [])
  unfold Event.Construct
  rw [← h]

/-- Witness for C1 at the concrete quit event. -/
theorem push_poll_inverse_witness :
    Event.Poll (Event.Push qe0 []) = (true, qe0, []) ∧
    Event.GetQueueSize (Event.Push qe0 []) = Event.GetQueueSize [] + 1 :=
  push_poll_inverse qe0 rfl

/-- C6: polling repeatedly (with enough fuel for the whole queue and no
concurrent producer) returns exactly the pending records, converted, in
the queue's FIFO order: each `Poll` consumes precisely the oldest record
and nothing is reordered or buffered. -/
theorem poll_fifo_order (fuel : Nat) (q : EventQueue) (h : q.length ≤ fuel) :
    pollDrain fuel q = q.map Event.Construct := by
  induction fuel generalizing q with
  | zero =>
    cases q with
    | nil => rfl
    | cons r rest => simp at h
  | succ n ih =>
    cases q with
    | nil => rfl
    | cons r rest =>
      show Event.Construct r :: pollDrain n rest = _
      rw [List.map_cons, ih rest (by simpa using h)]

/-- Witness for C6 on a concrete two-element queue. -/
theorem poll_fifo_order_witness :
    pollDrain 2 [rQuit0, rW0] = [Event.Construct rQuit0, Event.Construct rW0] :=
  poll_fifo_order 2 [rQuit0, rW0] (by simp)

/-- C8: after `FlushAll` for one category (or for all categories) the
queue depth of the flushed scope is zero; both operations are total. -/
theorem flushall_empties (t : EventType) (q : EventQueue) :
    Event.GetQueueSizeOf t (Event.FlushAllOf t q) = 0 ∧
    Event.GetQueueSize (Event.FlushAll q) = 0 := by
  refine ⟨?_, rfl⟩
  have hnil : (Event.FlushAllOf t q).filter (fun r => eventTypeOfCode r.type == t) = [] := by
    rw [List.filter_eq_nil_iff]
    intro a ha
    have := List.of_mem_filter ha
    simpa using this
  simp [Event.GetQueueSizeOf, hnil]

/-- C9: `InQueue` holds exactly when the queue depth of the category is
positive; it is a pure query with no state of its own. -/
theorem inqueue_iff_size_pos (t : EventType) (q : EventQueue) :
    Event.InQueue t q = true ↔ 0 < Event.GetQueueSizeOf t q := by
  unfold Event.InQueue Event.GetQueueSizeOf
  rw [List.any_eq_true, List.length_pos]
  constructor
  · rintro ⟨r, hr, hp⟩ hnil
    have : r ∈ q.filter (fun r => eventTypeOfCode r.type == t) :=
      List.mem_filter.mpr ⟨hr, hp⟩
    rw [hnil] at this
    exact List.not_mem_nil r this
  · intro hne
    obtain ⟨r, hr⟩ := List.exists_mem_of_ne_nil _ hne
    have := List.mem_filter.mp hr
    exact ⟨r, this.1, this.2⟩

/-- C2: constructing an event from a raw record whose discriminator
selects a supported category and then calling `Get` for that category
yields the variant whose fields are exactly the raw payload's fields,
for all field values. -/
theorem construct_get_roundtrip (r : RawEventRecord) (c : Category)
    (h : codeCategory r.type = some c) :
    (Event.Get c (Event.Construct r)).1 = Except.ok (variantOfRaw c r) := by
  have hd : (Event.Construct r).data = dataOfRaw r := rfl
  cases c <;>
    simp [Event.Get, hd, dataOfRaw, h, extract]

/-- Witness for C2 at the mouse-motion record with x = 839 and y = 351,
whose accessors return those coordinates exactly. -/
theorem construct_get_roundtrip_witness :
    (Event.Get Category.mouseMotionEv (Event.Construct rMotion0)).1 =
      Except.ok (variantOfRaw Category.mouseMotionEv rMotion0) ∧
    MouseMotionEvent.GetX (variantOfRaw Category.mouseMotionEv rMotion0) = 839 ∧
    MouseMotionEvent.GetY (variantOfRaw Category.mouseMotionEv rMotion0) = 351 :=
  ⟨construct_get_roundtrip rMotion0 Category.mouseMotionEv (by decide), rfl, rfl⟩

/-- C3: on a category that does not match the active variant, `Get`
reports a type mismatch and returns the event unchanged, and `TryGet`
returns the empty result. -/
theorem get_mismatch_safe (e : Event) (c : Category) (h : e.Is c = false) :
    (Event.Get c e).1 = Except.error EventError.typeMismatch ∧
    (Event.Get c e).2 = e ∧ Event.TryGet c e = none := by
  cases hx : extract c e.data with
  | some v =>
    exfalso
    rw [Event.Is, hx] at h
    simp at h
  | none =>
    exact ⟨by simp [Event.Get, hx], by simp [Event.Get, hx], by simp [Event.TryGet, hx]⟩

/-- Witness for C3: asking the quit event for a window variant. -/
theorem get_mismatch_safe_witness :
    (Event.Get Category.windowEv qe0).1 = Except.error EventError.typeMismatch ∧
    (Event.Get Category.windowEv qe0).2 = qe0 ∧
    Event.TryGet Category.windowEv qe0 = none :=
  get_mismatch_safe qe0 Category.windowEv (by decide)

/-- C4 counterexample: the default-constructed (empty) event instance
satisfies no `Is` query at all, so it is not the case that exactly one
category query holds for every event instance. -/
theorem is_exclusive_cex : ¬ ExactlyOneIs emptyEvent := by
  rintro ⟨c, hc, -⟩
  cases c <;> simp [emptyEvent, Event.Is, extract] at hc

/-- C4 amended: for every event constructed from a raw record with a
recognized discriminator, exactly one `Is` query is true, namely the one
for the matching variant wrapper type; the empty event and
unknown-category events satisfy none. -/
theorem is_exclusive_amended (r : RawEventRecord) (c : Category)
    (h : codeCategory r.type = some c) :
    ExactlyOneIs (Event.Construct r) ∧
    ∀ cc, (Event.Construct r).Is cc = true ↔ cc = c := by
  have hd : (Event.Construct r).data = dataOfRaw r := rfl
  have key : ∀ cc, (Event.Construct r).Is cc = true ↔ cc = c := by
    intro cc
    rw [Event.Is, hd]
    cases c <;> cases cc <;> simp [dataOfRaw, h, extract]
  exact ⟨⟨c, (key c).mpr rfl, fun cc hcc => (key cc).mp hcc⟩, key⟩

/-- Witness for C4 at the concrete window event. -/
theorem is_exclusive_amended_witness :
    ExactlyOneIs (Event.Construct rW0) ∧
    ((Event.Construct rW0).Is Category.windowEv = true ↔
      Category.windowEv = Category.windowEv) :=
  ⟨(is_exclusive_amended rW0 Category.windowEv (by decide)).1,
   (is_exclusive_amended rW0 Category.windowEv (by decide)).2 Category.windowEv⟩

/-- C7: construction from a raw record with an unrecognized discriminator
succeeds (the construction rule is total), reports the unknown category,
stores no typed payload, and satisfies no known-category query. -/
theorem unknown_code_maps_to_unknown (r : RawEventRecord)
    (h : codeCategory r.type = none) :
    (Event.Construct r).GetType = EventType.Unknown ∧
    (Event.Construct r).data = EventData.empty ∧
    ∀ c, (Event.Construct r).Is c = false := by
  have ht : eventTypeOfCode r.type = EventType.Unknown := by
    cases he : eventTypeOfCode r.type <;>
      simp [codeCategory, he, categoryOfType] at h ⊢
  refine ⟨ht, ?_, ?_⟩
  · show dataOfRaw r = EventData.empty
    unfold dataOfRaw
    rw [h]
  · intro c
    show (extract c (dataOfRaw r)).isSome = false
    unfold dataOfRaw
    rw [h]
    cases c <;> rfl

/-- Witness for C7 at the concrete record with discriminator 999. -/
theorem unknown_code_maps_to_unknown_witness :
    (Event.Construct rUnk0).GetType = EventType.Unknown ∧
    (Event.Construct rUnk0).data = EventData.empty ∧
    (Event.Construct rUnk0).Is Category.quitEv = false :=
  ⟨(unknown_code_maps_to_unknown rUnk0 (by decide)).1,
   (unknown_code_maps_to_unknown rUnk0 (by decide)).2.1,
   (unknown_code_maps_to_unknown rUnk0 (by decide)).2.2 Category.quitEv⟩

/-- C10: the touch-finger setters clamp their argument: after `set_x`,
`set_y` or `set_pressure` the accessor value lies in [0, 1]; after
`set_dx` or `set_dy` it lies in [-1, 1]; and an in-range argument is
stored unchanged. -/
theorem touch_finger_setters_clamp (e : TouchFingerEvent) (v : ℚ) :
    (0 ≤ (e.set_x v).x ∧ (e.set_x v).x ≤ 1) ∧
    (0 ≤ (e.set_y v).y ∧ (e.set_y v).y ≤ 1) ∧
    (0 ≤ (e.set_pressure v).pressure ∧ (e.set_pressure v).pressure ≤ 1) ∧
    (-1 ≤ (e.set_dx v).dx ∧ (e.set_dx v).dx ≤ 1) ∧
    (-1 ≤ (e.set_dy v).dy ∧ (e.set_dy v).dy ≤ 1) ∧
    (0 ≤ v → v ≤ 1 →
      (e.set_x v).x = v ∧ (e.set_y v).y = v ∧ (e.set_pressure v).pressure = v) ∧
    (-1 ≤ v → v ≤ 1 → (e.set_dx v).dx = v ∧ (e.set_dy v).dy = v) := by
  have m01 := clamp_inclusive_mem (Range.mk 0 1) (by norm_num) v
  have m11 := clamp_inclusive_mem (Range.mk (-1) 1) (by norm_num) v
  refine ⟨⟨m01.1, m01.2⟩, ⟨m01.1, m01.2⟩, ⟨m01.1, m01.2⟩,
    ⟨m11.1, m11.2⟩, ⟨m11.1, m11.2⟩, ?_, ?_⟩
  · intro h1 h2
    have hcl := clamp_inclusive_of_mem (Range.mk 0 1) v h1 h2
    exact ⟨hcl, hcl, hcl⟩
  · intro h1 h2
    have hcl := clamp_inclusive_of_mem (Range.mk (-1) 1) v h1 h2
    exact ⟨hcl, hcl⟩

/-- Witness for C10: an out-of-range argument is clamped into [0, 1] and
an in-range argument is stored exactly. -/
theorem touch_finger_setters_clamp_witness :
    (0 ≤ (tfe0.set_x 2).x ∧ (tfe0.set_x 2).x ≤ 1) ∧
    (tfe0.set_x (1 / 2)).x = 1 / 2 :=
  ⟨(touch_finger_setters_clamp tfe0 2).1,
   ((touch_finger_setters_clamp tfe0 (1 / 2)).2.2.2.2.2.1 (by norm_num)
     (by norm_num)).1⟩

end Cen
